import Mathlib

/-!
Verification of the scoring and aggregation pipeline of the GitHub portfolio
analyzer backend (`backend/app/services`).  The Python services are shallowly
embedded: dictionaries become structures, floats become exact rationals (ℚ),
`datetime` values become integer Unix timestamps (seconds) with
`timedelta.days` modelled as floor division by 86400, and Python's
`round(x, 2)` becomes round-half-to-even at two decimal places on ℚ.
Regular-expression searches of literal alternations (`re.search` with `re.I`)
are modelled as case-insensitive substring tests (ASCII folding), and the
badge pattern `!\[.*\]\(.*\)` as an explicit scan in which `.` does not cross
newlines, exactly as in Python's default regex semantics.
-/

set_option maxRecDepth 4000

/-- Round half to even (banker's rounding), the tie-breaking rule used by
Python's built-in `round`. -/
def roundHalfEven (q : ℚ) : ℤ :=
  if q - ⌊q⌋ < 1/2 then ⌊q⌋
  else if 1/2 < q - ⌊q⌋ then ⌊q⌋ + 1
  else if ⌊q⌋ % 2 = 0 then ⌊q⌋ else ⌊q⌋ + 1

/-- Python's `round(x, 2)` on the exact rational value. -/
def pyRound2 (q : ℚ) : ℚ := (roundHalfEven (100 * q) : ℚ) / 100

/-! ### Text detectors (README analysis, `analyzer_service.py` lines 66-71) -/

/-- Substring containment, modelling `re.search` of a literal pattern. -/
def containsSub (needle : List Char) : List Char → Bool
  | [] => needle.isEmpty
  | c :: rest => needle.isPrefixOf (c :: rest) || containsSub needle rest

/-- ASCII case folding, modelling the effect of `re.I` on the ASCII keyword
patterns used by the service. -/
def lowerStr (s : List Char) : List Char := s.map Char.toLower

/-- `re.search(r"(install|setup|getting started)", readme, re.I)`. -/
def hasSetupKeyword (s : List Char) : Bool :=
  containsSub "install".toList (lowerStr s) ||
  containsSub "setup".toList (lowerStr s) ||
  containsSub "getting started".toList (lowerStr s)

/-- `re.search(r"(example|usage|demo)", readme, re.I)`. -/
def hasExamplesKeyword (s : List Char) : Bool :=
  containsSub "example".toList (lowerStr s) ||
  containsSub "usage".toList (lowerStr s) ||
  containsSub "demo".toList (lowerStr s)

/-- `re.search(r"(api|endpoint|route)", readme, re.I)`. -/
def hasApiKeyword (s : List Char) : Bool :=
  containsSub "api".toList (lowerStr s) ||
  containsSub "endpoint".toList (lowerStr s) ||
  containsSub "route".toList (lowerStr s)

/-- After `](` was found: look for a `)` on the same line (`.` in the Python
pattern does not match a newline). -/
def scanCloseParen : List Char → Bool
  | [] => false
  | c :: rest =>
    if c = ')' then true else if c = '\n' then false else scanCloseParen rest

/-- Helper for the badge pattern: the character right after a candidate `]`
must be `(`, then a closing `)` must follow on the same line. -/
def afterBracketClose : List Char → Bool
  | '(' :: rest => scanCloseParen rest
  | _ => false

/-- Scan for `](`...`)` on the current line (no newline may intervene). -/
def scanBracketParen : List Char → Bool
  | [] => false
  | c :: rest =>
    if c = '\n' then false
    else (c = ']' && afterBracketClose rest) || scanBracketParen rest

/-- The character right after a candidate `!` must be `[`. -/
def afterBang : List Char → Bool
  | '[' :: rest => scanBracketParen rest
  | _ => false

/-- `re.search(r"!\[.*\]\(.*\)", readme)` — the markdown image/badge
pattern, case sensitive, with `.` not crossing newlines. -/
def hasBadge : List Char → Bool
  | [] => false
  | c :: rest => ((c = '!') && afterBang rest) || hasBadge rest

/-! ### Data model

Python dictionaries returned by the services become structures.  The empty
branch of `_analyze_documentation` returns a dict WITHOUT the
`has_api_documentation` key, and the empty branch of `_analyze_activity` a
dict without `days_since_last_commit`; those fields are therefore `Option`s,
`none` meaning "key absent". -/

/-- Result of `AnalyzerService._analyze_documentation`. -/
structure DocAnalysis where
  has_readme : Bool
  readme_length : ℕ
  has_setup_instructions : Bool
  has_examples : Bool
  has_badges : Bool
  has_api_documentation : Option Bool
  quality_score : ℕ
deriving DecidableEq

/-- Result of `AnalyzerService._analyze_code_structure`. -/
structure CodeAnalysis where
  primary_language : Option String
  languages_used : List String
  language_diversity : ℕ
  has_multiple_languages : Bool
  size_kb : ℕ
  has_issues_enabled : Bool
  has_projects_enabled : Bool
  has_wiki_enabled : Bool
deriving DecidableEq

/-- Result of `AnalyzerService._analyze_activity`.  Commit timestamps are
Unix seconds; `commit_frequency` is the value as returned, i.e. rounded to
two decimals by `round(commit_frequency, 2)`. -/
structure ActivityAnalysis where
  total_commits_recent : ℕ
  commit_frequency : ℚ
  last_commit_date : Option ℤ
  days_since_last_commit : Option ℤ
  is_active : Bool
  activity_score : ℕ
deriving DecidableEq

/-- Result of `AnalyzerService._calculate_repo_score`. -/
structure RepoScore where
  overall : ℚ
  documentation : ℕ
  code_quality : ℕ
  activity : ℕ
  popularity : ℕ
  grade : String
deriving DecidableEq

/-- The fields of the analyzed-repository record (built by
`AnalyzerService.analyze_repository`) that the downstream services read. -/
structure AnalyzedRepo where
  name : String
  stars : ℕ
  forks : ℕ
  languages : List String
  documentation_analysis : DocAnalysis
  code_analysis : CodeAnalysis
  activity_analysis : ActivityAnalysis
  score : RepoScore
deriving DecidableEq

/-- Raw per-repository input to the analyzer: the repository record fields it
reads plus the fetched README text, language keys (JSON object keys, hence
pairwise distinct) and recent-commit timestamps in the collaborator's return
order (newest first). -/
structure RepoInput where
  name : String
  stars : ℕ
  forks : ℕ
  primary_language : Option String
  size_kb : ℕ
  has_issues : Bool
  has_projects : Bool
  has_wiki : Bool
  readme : List Char
  languages : List String
  commits : List ℤ
deriving DecidableEq

/-- The user-profile fields the score calculator reads.  `recent_activity` is
a count of recent events (`len(events)`), hence a natural number. -/
structure UserData where
  login : String
  name : Option String
  recent_activity : ℕ
deriving DecidableEq

/-- Result of `ScoreCalculator.calculate_portfolio_score`.  The component
fields hold the values rounded to two decimals, as returned. -/
structure PortfolioScore where
  overall : ℚ
  documentation : ℚ
  code_quality : ℚ
  consistency : ℚ
  impact : ℚ
  depth : ℚ
  grade : String
  red_flags : List String
  strengths : List String
deriving DecidableEq

/-- Result of `RecruiterSimulator._determine_hire_decision`. -/
structure HireDecision where
  decision : String
  confidence : String
  reasoning : String
  score : ℚ
  grade : String
deriving DecidableEq

/-- Result of `RoadmapGenerator._estimate_impact`. -/
structure EstimatedImpact where
  current_score : ℚ
  potential_score : ℚ
  improvement : ℚ
  timeframe : String
deriving DecidableEq

namespace Config

/-- `Config.SCORING_WEIGHTS` (config.py). -/
def wDocumentation : ℚ := 25/100

def wCodeQuality : ℚ := 25/100

def wConsistency : ℚ := 20/100

def wImpact : ℚ := 20/100

def wDepth : ℚ := 10/100

/-- `Config.ACTIVE_DAYS_THRESHOLD` (config.py). -/
def ACTIVE_DAYS_THRESHOLD : ℤ := 30

end Config

/-! ### Repository Analyzer (`analyzer_service.py`) -/

/-- `AnalyzerService._analyze_documentation`.  The readme is the decoded
README text (empty string when absent); `len` is its character count. -/
def analyzeDocumentation (readme : List Char) : DocAnalysis :=
  if readme.isEmpty then
    ⟨false, 0, false, false, false, none, 0⟩
  else
    let has_setup := hasSetupKeyword readme
    let has_examples := hasExamplesKeyword readme
    let has_badges := hasBadge readme
    let has_api_docs := hasApiKeyword readme
    let len_points := if 500 < readme.length then 30
      else if 200 < readme.length then 15 else 0
    let quality := len_points + (if has_setup then 20 else 0) +
      (if has_examples then 20 else 0) + (if has_badges then 15 else 0) +
      (if has_api_docs then 15 else 0)
    ⟨true, readme.length, has_setup, has_examples, has_badges,
      some has_api_docs, min quality 100⟩

/-- `AnalyzerService._analyze_code_structure`. -/
def analyzeCodeStructure (r : RepoInput) : CodeAnalysis :=
  ⟨r.primary_language, r.languages, r.languages.length,
    decide (1 < r.languages.length), r.size_kb, r.has_issues,
    r.has_projects, r.has_wiki⟩

/-- The `commit_frequency` local of `AnalyzerService._analyze_activity`
before rounding: `commit_dates[0]` is the list head (newest observed commit),
`commit_dates[-1]` the last element, and `timedelta.days` floors. -/
def commitFrequency (commits : List ℤ) : ℚ :=
  if 1 < commits.length then
    let days_diff := (commits.headD 0 - commits.getLastD 0).fdiv 86400
    if 0 < days_diff then (commits.length : ℚ) / (days_diff : ℚ)
    else (commits.length : ℚ)
  else 1

/-- `AnalyzerService._analyze_activity`, with the current UTC time injected
as `now`. -/
def analyzeActivity (now : ℤ) (commits : List ℤ) : ActivityAnalysis :=
  if commits.isEmpty then
    ⟨0, 0, none, none, false, 0⟩
  else
    let commit_frequency := commitFrequency commits
    let last_commit := commits.headD 0
    let days_since_last_commit := (now - last_commit).fdiv 86400
    let is_active := decide (days_since_last_commit < Config.ACTIVE_DAYS_THRESHOLD)
    let activity_score := (if is_active then 40 else 0) +
      (if 1/2 < commit_frequency then 30
       else if 1/10 < commit_frequency then 15 else 0) +
      min commits.length 30
    ⟨commits.length, pyRound2 commit_frequency, some last_commit,
      some days_since_last_commit, is_active, min activity_score 100⟩

/-- `_get_grade`, identical in `AnalyzerService` and `ScoreCalculator`. -/
def getGrade (score : ℚ) : String :=
  if 90 ≤ score then "A"
  else if 80 ≤ score then "B"
  else if 70 ≤ score then "C"
  else if 60 ≤ score then "D"
  else "F"

/-- The unrounded weighted overall of `AnalyzerService._calculate_repo_score`. -/
def repoOverallRaw (doc_score code_score activity_score popularity_score : ℕ) : ℚ :=
  (doc_score : ℚ) * (35/100) + (code_score : ℚ) * (25/100) +
  (activity_score : ℚ) * (25/100) + (popularity_score : ℚ) * (15/100)

/-- `AnalyzerService._calculate_repo_score`.  `overall` is rounded to two
decimals; the grade is computed from the unrounded value. -/
def calculateRepoScore (doc : DocAnalysis) (code : CodeAnalysis)
    (act : ActivityAnalysis) (r : RepoInput) : RepoScore :=
  let doc_score := doc.quality_score
  let activity_score := act.activity_score
  let code_score := min (50 + (if code.has_multiple_languages then 20 else 0) +
    (if code.has_wiki_enabled then 15 else 0)) 100
  let popularity_score := min (r.stars * 2 + r.forks * 3) 100
  let overall := repoOverallRaw doc_score code_score activity_score popularity_score
  ⟨pyRound2 overall, doc_score, code_score, activity_score, popularity_score,
    getGrade overall⟩

/-- `AnalyzerService.analyze_repository` restricted to the fields consumed by
the downstream services. -/
def analyzeRepository (now : ℤ) (r : RepoInput) : AnalyzedRepo :=
  let doc := analyzeDocumentation r.readme
  let code := analyzeCodeStructure r
  let act := analyzeActivity now r.commits
  ⟨r.name, r.stars, r.forks, r.languages, doc, code, act,
    calculateRepoScore doc code act r⟩

/-! ### Portfolio Score Calculator (`score_calculator.py`) -/

/-- `ScoreCalculator._calculate_documentation_score`: mean of the per-repo
documentation quality scores, 0 for an empty list. -/
def documentationScore (repos : List AnalyzedRepo) : ℚ :=
  if repos.isEmpty then 0
  else (((repos.map fun r => r.documentation_analysis.quality_score).sum : ℕ) : ℚ) /
    (repos.length : ℚ)

/-- `ScoreCalculator._calculate_code_quality_score`: mean of the per-repo
`score.code_quality` values, 0 for an empty list. -/
def codeQualityScore (repos : List AnalyzedRepo) : ℚ :=
  if repos.isEmpty then 0
  else (((repos.map fun r => r.score.code_quality).sum : ℕ) : ℚ) /
    (repos.length : ℚ)

/-- `ScoreCalculator._calculate_consistency_score`. -/
def consistencyScore (repos : List AnalyzedRepo) (user : UserData) : ℚ :=
  if repos.isEmpty then 0
  else
    let active_repos := repos.countP fun r => r.activity_analysis.is_active
    let activity_bonus := ((min user.recent_activity 50 : ℕ) : ℚ) / 50 * 20
    min ((active_repos : ℚ) / (repos.length : ℚ) * 80 + activity_bonus) 100

/-- `ScoreCalculator._calculate_impact_score`. -/
def impactScore (repos : List AnalyzedRepo) : ℚ :=
  if repos.isEmpty then 0
  else (min ((repos.map fun r => r.stars).sum * 2 +
    (repos.map fun r => r.forks).sum * 3) 100 : ℕ)

/-- The set of languages appearing across all repositories (Python builds a
`set` by union; only its cardinality is consumed, so the deduplicated
concatenation is a faithful model). -/
def allLanguages (repos : List AnalyzedRepo) : List String :=
  (repos.flatMap fun r => r.languages).dedup

/-- `ScoreCalculator._calculate_technical_depth_score`. -/
def depthScore (repos : List AnalyzedRepo) : ℚ :=
  if repos.isEmpty then 0
  else
    let language_count := (allLanguages repos).length
    if 5 ≤ language_count then 100
    else if 3 ≤ language_count then 80
    else if 2 ≤ language_count then 60
    else if 1 ≤ language_count then 40
    else 20

/-- `ScoreCalculator._identify_red_flags`.  `count > len/2` under Python's
true division is `2 * count > len`. -/
def identifyRedFlags (repos : List AnalyzedRepo) : List String :=
  if repos.isEmpty then ["No public repositories"]
  else
    (if repos.countP (fun r => !r.activity_analysis.is_active) = repos.length
      then ["All repositories are inactive"] else []) ++
    (if repos.length <
        2 * repos.countP (fun r => !r.documentation_analysis.has_readme)
      then ["Most repositories missing README files"] else []) ++
    (if (repos.map fun r => r.stars).sum = 0
      then ["No stars on any repositories"] else [])

/-- `ScoreCalculator._identify_portfolio_strengths`. -/
def identifyPortfolioStrengths (repos : List AnalyzedRepo) : List String :=
  ((if 5 ≤ repos.length then
      ["Strong portfolio with " ++ toString repos.length ++ " repositories"]
    else []) ++
   (if 3 ≤ repos.countP (fun r => 70 < r.documentation_analysis.quality_score)
      then ["Multiple well-documented projects"] else []) ++
   (if 3 ≤ (allLanguages repos).length then
      ["Demonstrates proficiency in " ++ toString (allLanguages repos).length ++
        " programming languages"]
    else [])).take 3

/-- The unrounded weighted overall of
`ScoreCalculator.calculate_portfolio_score` (its local variable `overall`):
the grade is computed from this value, while the returned `overall` field is
its two-decimal rounding. -/
def portfolioOverallRaw (user : UserData) (repos : List AnalyzedRepo) : ℚ :=
  documentationScore repos * Config.wDocumentation +
  codeQualityScore repos * Config.wCodeQuality +
  consistencyScore repos user * Config.wConsistency +
  impactScore repos * Config.wImpact +
  depthScore repos * Config.wDepth

/-- `ScoreCalculator.calculate_portfolio_score`. -/
def calculatePortfolioScore (user : UserData) (repos : List AnalyzedRepo) :
    PortfolioScore :=
  ⟨pyRound2 (portfolioOverallRaw user repos),
   pyRound2 (documentationScore repos),
   pyRound2 (codeQualityScore repos),
   pyRound2 (consistencyScore repos user),
   pyRound2 (impactScore repos),
   pyRound2 (depthScore repos),
   getGrade (portfolioOverallRaw user repos),
   identifyRedFlags repos,
   identifyPortfolioStrengths repos⟩

/-! ### Recruiter Simulator and Roadmap Generator -/

/-- `RecruiterSimulator._determine_hire_decision`. -/
def determineHireDecision (p : PortfolioScore) : HireDecision :=
  if 80 ≤ p.overall then
    ⟨"HIRE", "High",
      "Strong portfolio with excellent documentation and consistent activity",
      p.overall, p.grade⟩
  else if 60 ≤ p.overall then
    ⟨"MAYBE", "Medium",
      "Decent portfolio but needs improvement in key areas",
      p.overall, p.grade⟩
  else
    ⟨"REJECT", if p.overall < 40 then "High" else "Medium",
      "Portfolio lacks critical elements expected from candidates",
      p.overall, p.grade⟩

/-- `RoadmapGenerator._estimate_impact`. -/
def estimateImpact (p : PortfolioScore) : EstimatedImpact :=
  let current_score := p.overall
  let potential :=
    if current_score < 50 then min (current_score + 30) 100
    else if current_score < 70 then min (current_score + 20) 100
    else min (current_score + 10) 100
  ⟨current_score, potential, pyRound2 (potential - current_score),
    "3 months with consistent effort"⟩

/-! ### Concrete inputs used by scenario conjuncts, counterexamples and
witnesses -/

/-- A README of exactly 600 characters containing "Installation", "Usage"
and a markdown image, but no API keyword (spec scenario for C4). -/
def c4Readme : List Char :=
  "Installation\nUsage\n![i](l)\n".toList ++ List.replicate 573 'z'

/-- A README longer than 500 characters matching the setup, example, badge
and API detectors: documentation quality 100. -/
def c1ReadmeFull : List Char :=
  "install usage api ![b](u)\n".toList ++ List.replicate 480 'z'

/-- A README longer than 500 characters matching only the badge and API
detectors: documentation quality 30 + 15 + 15 = 60. -/
def c1ReadmeSparse : List Char :=
  "api ![b](u)\n".toList ++ List.replicate 495 'z'

/-- An injected current time (Unix seconds). -/
def c1Now : ℤ := 1700000000

def c1Repo1 : RepoInput :=
  ⟨"alpha", 42, 1, some "Py", 10, true, true, true, c1ReadmeFull,
    ["Py", "Go"], [c1Now]⟩

def c1Repo2 : RepoInput :=
  ⟨"beta", 0, 0, some "C", 5, true, false, true, c1ReadmeFull,
    ["C", "Js"], [c1Now]⟩

def c1Repo3 : RepoInput :=
  ⟨"gamma", 0, 0, some "Rb", 2, false, false, true, c1ReadmeSparse,
    ["Rb", "Ml"], [c1Now]⟩

/-- Three analyzer-produced repositories whose exact portfolio overall is
26999/300 = 89.996... -/
def c1Repos : List AnalyzedRepo :=
  [c1Repo1, c1Repo2, c1Repo3].map (analyzeRepository c1Now)

def c1User : UserData := ⟨"user", none, 46⟩

/-- A minimal repository input (no README, no commits, no languages). -/
def r0 : RepoInput := ⟨"r0", 0, 0, none, 0, false, false, false, [], [], []⟩

/-- The analyzer's output on `r0`. -/
def a0 : AnalyzedRepo := analyzeRepository 0 r0

/-! ### Claim-level specification predicates -/

/-- The commit frequency exactly as claim C5 words it: count divided by the
day-span between the newest and oldest observed commits, the count itself
when the span is zero days. -/
def claimedRawFrequency (commits : List ℤ) : ℚ :=
  let span := (commits.headD 0 - commits.getLastD 0).fdiv 86400
  if span = 0 then (commits.length : ℚ)
  else (commits.length : ℚ) / (span : ℚ)

/-- Claim C5 as amended: the zero-commit record, and otherwise the field
values of the activity analysis, with the returned `commit_frequency` being
the claimed raw frequency rounded to two decimals and the activity score
computed from the unrounded frequency. -/
def activitySpec (now : ℤ) (commits : List ℤ) : Prop :=
  if commits.isEmpty then
    analyzeActivity now commits = ⟨0, 0, none, none, false, 0⟩
  else
    let a := analyzeActivity now commits
    let f := claimedRawFrequency commits
    a.total_commits_recent = commits.length ∧
    a.commit_frequency = pyRound2 f ∧
    a.last_commit_date = some (commits.headD 0) ∧
    (a.is_active = true ↔ (now - commits.headD 0).fdiv 86400 < 30) ∧
    a.activity_score = min ((if a.is_active then 40 else 0) +
      (if 1/2 < f then 30 else if 1/10 < f then 15 else 0) +
      min commits.length 30) 100

/-- The step function of the distinct-language count, as claim C3 words it. -/
def depthStep (repos : List AnalyzedRepo) : ℚ :=
  let d := (allLanguages repos).length
  if 5 ≤ d then 100
  else if 3 ≤ d then 80
  else if 2 ≤ d then 60
  else if 1 ≤ d then 40
  else 20

/-- Claim C10: every analyzer-produced per-repo `code_quality` lies in
[50, 85], and so does the portfolio code-quality component, which therefore
never reaches 100. -/
def c10Spec (user : UserData) (now : ℤ) (inputs : List RepoInput) : Prop :=
  let repos := inputs.map (analyzeRepository now)
  (∀ r ∈ repos, 50 ≤ r.score.code_quality ∧ r.score.code_quality ≤ 85) ∧
  50 ≤ (calculatePortfolioScore user repos).code_quality ∧
  (calculatePortfolioScore user repos).code_quality ≤ 85 ∧
  (calculatePortfolioScore user repos).code_quality ≠ 100

/-! ### Properties of the rounding model -/

lemma roundHalfEven_intCast (k : ℤ) : roundHalfEven (k : ℚ) = k := by
  unfold roundHalfEven
  rw [Int.floor_intCast]
  norm_num

lemma le_roundHalfEven {a : ℤ} {q : ℚ} (h : (a:ℚ) ≤ q) : a ≤ roundHalfEven q := by
  have hf : a ≤ ⌊q⌋ := Int.le_floor.mpr h
  unfold roundHalfEven
  split_ifs <;> omega

lemma roundHalfEven_le {b : ℤ} {q : ℚ} (h : q ≤ (b:ℚ)) : roundHalfEven q ≤ b := by
  have hfb : ⌊q⌋ ≤ b := by
    have h2 := Int.floor_le_floor h
    simpa using h2
  have hlt : ¬ (q - ⌊q⌋ < 1/2) → ⌊q⌋ < b := by
    intro hge
    push_neg at hge
    have hq : (⌊q⌋:ℚ) < q := by linarith
    exact_mod_cast lt_of_lt_of_le hq h
  unfold roundHalfEven
  split_ifs with h1 h2 h3
  · exact hfb
  · have := hlt h1; omega
  · exact hfb
  · have := hlt h1; omega

lemma roundHalfEven_eq_add_one {q : ℚ} {n : ℤ} (h1 : (n:ℚ) ≤ q)
    (h2 : q < (n:ℚ) + 1) (h3 : 1/2 < q - (n:ℚ)) : roundHalfEven q = n + 1 := by
  have hf : ⌊q⌋ = n := Int.floor_eq_iff.mpr ⟨h1, by linarith⟩
  unfold roundHalfEven
  rw [hf]
  rw [if_neg (by linarith), if_pos h3]

lemma pyRound2_intCast (k : ℤ) : pyRound2 (k : ℚ) = (k : ℚ) := by
  unfold pyRound2
  have h : (100:ℚ) * k = ((100 * k : ℤ) : ℚ) := by push_cast; ring
  rw [h, roundHalfEven_intCast]
  push_cast
  ring

lemma pyRound2_div100 (k : ℤ) : pyRound2 ((k:ℚ)/100) = (k:ℚ)/100 := by
  unfold pyRound2
  have h : (100:ℚ) * ((k:ℚ)/100) = (k:ℚ) := by field_simp
  rw [h, roundHalfEven_intCast]

lemma le_pyRound2 {a : ℤ} {q : ℚ} (h : (a:ℚ) ≤ q) : (a:ℚ) ≤ pyRound2 q := by
  unfold pyRound2
  have h1 : 100 * a ≤ roundHalfEven (100 * q) :=
    le_roundHalfEven (by push_cast; linarith)
  rw [le_div_iff₀ (by norm_num : (0:ℚ) < 100)]
  calc (a:ℚ) * 100 = ((100 * a : ℤ) : ℚ) := by push_cast; ring
    _ ≤ _ := by exact_mod_cast h1

lemma pyRound2_le {b : ℤ} {q : ℚ} (h : q ≤ (b:ℚ)) : pyRound2 q ≤ (b:ℚ) := by
  unfold pyRound2
  have h1 : roundHalfEven (100 * q) ≤ 100 * b :=
    roundHalfEven_le (by push_cast; linarith)
  rw [div_le_iff₀ (by norm_num : (0:ℚ) < 100)]
  calc (roundHalfEven (100 * q) : ℚ) ≤ ((100 * b : ℤ) : ℚ) := by exact_mod_cast h1
    _ = (b:ℚ) * 100 := by push_cast; ring

lemma pyRound2_zero : pyRound2 0 = 0 := by
  simpa using pyRound2_intCast 0

lemma pyRound2_natDiv100 (n : ℕ) : pyRound2 ((n:ℚ)/100) = (n:ℚ)/100 := by
  have h := pyRound2_div100 (n : ℤ)
  push_cast at h
  exact h

lemma repoOverallRaw_eq (a b c d : ℕ) :
    repoOverallRaw a b c d = ((35*a + 25*b + 25*c + 15*d : ℕ) : ℚ) / 100 := by
  unfold repoOverallRaw
  push_cast
  ring

lemma pyRound2_repoOverallRaw (a b c d : ℕ) :
    pyRound2 (repoOverallRaw a b c d) = repoOverallRaw a b c d := by
  rw [repoOverallRaw_eq, pyRound2_natDiv100]

/-! ### List averaging helpers -/

lemma mean_le_nat {l : List ℕ} {c : ℕ} (hne : l ≠ []) (h : ∀ x ∈ l, x ≤ c) :
    (l.sum : ℚ) / (l.length : ℚ) ≤ (c : ℚ) := by
  have hlen : 0 < l.length := List.length_pos.mpr hne
  have hlenQ : (0:ℚ) < (l.length : ℚ) := by exact_mod_cast hlen
  rw [div_le_iff₀ hlenQ]
  have hsum : l.sum ≤ l.length * c := by
    simpa [smul_eq_mul] using List.sum_le_card_nsmul l c h
  calc (l.sum : ℚ) ≤ ((l.length * c : ℕ) : ℚ) := by exact_mod_cast hsum
    _ = (c:ℚ) * (l.length : ℚ) := by push_cast; ring

lemma nat_le_mean {l : List ℕ} {c : ℕ} (hne : l ≠ []) (h : ∀ x ∈ l, c ≤ x) :
    (c : ℚ) ≤ (l.sum : ℚ) / (l.length : ℚ) := by
  have hlen : 0 < l.length := List.length_pos.mpr hne
  have hlenQ : (0:ℚ) < (l.length : ℚ) := by exact_mod_cast hlen
  rw [le_div_iff₀ hlenQ]
  have hsum : l.length * c ≤ l.sum := by
    simpa [smul_eq_mul] using List.card_nsmul_le_sum l c h
  calc (c:ℚ) * (l.length:ℚ) = ((l.length * c : ℕ) : ℚ) := by push_cast; ring
    _ ≤ (l.sum : ℚ) := by exact_mod_cast hsum

/-! ### Analyzer output bounds -/

lemma quality_score_le_100 (readme : List Char) :
    (analyzeDocumentation readme).quality_score ≤ 100 := by
  unfold analyzeDocumentation
  split_ifs <;> first
  | exact Nat.zero_le 100
  | exact Nat.min_le_right _ 100

lemma analyzed_code_quality_bounds (now : ℤ) (i : RepoInput) :
    50 ≤ (analyzeRepository now i).score.code_quality ∧
    (analyzeRepository now i).score.code_quality ≤ 85 := by
  have h : (analyzeRepository now i).score.code_quality =
      min (50 + (if (analyzeCodeStructure i).has_multiple_languages then 20 else 0) +
        (if (analyzeCodeStructure i).has_wiki_enabled then 15 else 0)) 100 := rfl
  rw [h]
  split_ifs <;> omega

/-! ### Sorted commit lists -/

lemma getLastD_le_head {x : ℤ} {l : List ℤ}
    (h : List.Sorted (fun a b => a ≥ b) (x :: l)) : (x :: l).getLastD 0 ≤ x := by
  have hne : x :: l ≠ [] := by simp
  have heq : (x :: l).getLastD 0 = (x :: l).getLast hne := by
    rw [List.getLastD_eq_getLast?, List.getLast?_eq_getLast _ hne]
    rfl
  rw [heq]
  have hmem := List.getLast_mem hne
  rcases List.mem_cons.mp hmem with h1 | h2
  · exact le_of_eq h1
  · exact (List.sorted_cons.mp h).1 _ h2

lemma commitFrequency_eq_claimed {commits : List ℤ}
    (hs : List.Sorted (fun a b => a ≥ b) commits) (hne : commits ≠ []) :
    commitFrequency commits = claimedRawFrequency commits := by
  match commits, hs, hne with
  | [c], _, _ =>
    norm_num [commitFrequency, claimedRawFrequency, Int.zero_fdiv]
  | c1 :: c2 :: cs, hs, _ =>
    have hlen : 1 < (c1 :: c2 :: cs).length := by simp
    have hlast : (c1 :: c2 :: cs).getLastD 0 ≤ c1 := getLastD_le_head hs
    have hdiffnn : (0:ℤ) ≤ c1 - (c1 :: c2 :: cs).getLastD 0 := by omega
    have hspan_nn : 0 ≤ (c1 - (c1 :: c2 :: cs).getLastD 0).fdiv 86400 :=
      Int.fdiv_nonneg hdiffnn (by norm_num)
    simp only [commitFrequency, claimedRawFrequency, List.headD_cons,
      if_pos hlen]
    rcases eq_or_lt_of_le hspan_nn with hz | hpos
    · rw [← hz]
      norm_num
    · rw [if_pos hpos, if_neg (by omega)]

/-! ### Claim theorems -/

/-- C2: for every user record, the portfolio score of the empty repository
list has overall 0, grade "F", red flags exactly
["No public repositories"] (the zero-repos check short-circuits the other
red-flag checks) and no strengths. -/
theorem portfolio_empty_repos (user : UserData) :
    calculatePortfolioScore user [] =
      ⟨0, 0, 0, 0, 0, 0, "F", ["No public repositories"], []⟩ := by
  unfold calculatePortfolioScore portfolioOverallRaw documentationScore
    codeQualityScore consistencyScore impactScore depthScore identifyRedFlags
    identifyPortfolioStrengths allLanguages
  norm_num [getGrade, pyRound2_zero, Config.wDocumentation, Config.wCodeQuality,
    Config.wConsistency, Config.wImpact, Config.wDepth]

/-- C3 counterexample: on the empty repository list (0 distinct languages)
the depth component is 0, not the claimed step value 20. -/
theorem depth_empty_cex :
    depthScore ([] : List AnalyzedRepo) = 0 ∧
    depthScore ([] : List AnalyzedRepo) ≠ 20 := by
  constructor
  · norm_num [depthScore]
  · norm_num [depthScore]

/-- C3 as amended: for every NON-EMPTY list of analyzed repositories the
depth component is the step function of the distinct-language count
(at least 5 gives 100, at least 3 gives 80, at least 2 gives 60, at least 1
gives 40, and 0 gives 20). -/
theorem depth_step_of_distinct_languages (repos : List AnalyzedRepo)
    (h : repos ≠ []) : depthScore repos = depthStep repos := by
  cases repos with
  | nil => exact absurd rfl h
  | cons a l => rfl

/-- Witness for `depth_step_of_distinct_languages` at a concrete
analyzer-produced repository list. -/
theorem depth_step_of_distinct_languages_witness :
    ([a0] : List AnalyzedRepo) ≠ [] ∧ depthScore [a0] = depthStep [a0] :=
  ⟨by simp, depth_step_of_distinct_languages [a0] (by simp)⟩

/-- C4: documentation quality is 0 with all booleans false on an empty
readme, and otherwise accumulates 30/15 length points, 20 for setup
keywords, 20 for example keywords, 15 for a markdown image pattern and 15
for API keywords, clamped to 100; the spec's scenario (length 600 with
"Installation", "Usage" and a markdown image, no API keyword) scores
exactly 85. -/
theorem doc_quality_formula (readme : List Char) :
    (analyzeDocumentation readme).quality_score =
      (if readme.isEmpty then 0 else
        min ((if 500 < readme.length then 30
              else if 200 < readme.length then 15 else 0) +
             (if hasSetupKeyword readme then 20 else 0) +
             (if hasExamplesKeyword readme then 20 else 0) +
             (if hasBadge readme then 15 else 0) +
             (if hasApiKeyword readme then 15 else 0)) 100) ∧
    (analyzeDocumentation readme).has_readme = !readme.isEmpty ∧
    analyzeDocumentation [] = ⟨false, 0, false, false, false, none, 0⟩ ∧
    c4Readme.length = 600 ∧
    hasSetupKeyword c4Readme = true ∧
    hasExamplesKeyword c4Readme = true ∧
    hasBadge c4Readme = true ∧
    hasApiKeyword c4Readme = false ∧
    (analyzeDocumentation c4Readme).quality_score = 85 := by
  refine ⟨?_, ?_, by decide, by decide, by decide, by decide, by decide,
    by decide, by decide⟩
  · cases hre : readme.isEmpty <;> simp [analyzeDocumentation, hre]
  · cases hre : readme.isEmpty <;> simp [analyzeDocumentation, hre]

/-- C6: the per-repository score has
code_quality = min(50 + 20·multi-language + 15·wiki, 100),
popularity = min(stars·2 + forks·3, 100), overall exactly the weighted sum
documentation·0.35 + code_quality·0.25 + activity·0.25 + popularity·0.15,
and the grade is the standard step function of that overall. -/
theorem repo_score_formula (d : DocAnalysis) (c : CodeAnalysis)
    (a : ActivityAnalysis) (r : RepoInput) :
    (calculateRepoScore d c a r).code_quality =
      min (50 + (if c.has_multiple_languages then 20 else 0) +
        (if c.has_wiki_enabled then 15 else 0)) 100 ∧
    (calculateRepoScore d c a r).popularity =
      min (r.stars * 2 + r.forks * 3) 100 ∧
    (calculateRepoScore d c a r).overall =
      (d.quality_score : ℚ) * (35/100) +
      ((calculateRepoScore d c a r).code_quality : ℚ) * (25/100) +
      (a.activity_score : ℚ) * (25/100) +
      ((calculateRepoScore d c a r).popularity : ℚ) * (15/100) ∧
    (calculateRepoScore d c a r).grade =
      getGrade ((calculateRepoScore d c a r).overall) := by
  have hov : (calculateRepoScore d c a r).overall =
      repoOverallRaw d.quality_score (calculateRepoScore d c a r).code_quality
        a.activity_score (calculateRepoScore d c a r).popularity :=
    pyRound2_repoOverallRaw _ _ _ _
  refine ⟨rfl, rfl, ?_, ?_⟩
  · rw [hov]
    rfl
  · rw [hov]
    rfl

/-- C7: the recruiter hire decision is HIRE/High for overall at least 80,
MAYBE/Medium for overall in [60, 80), and otherwise REJECT with confidence
High below 40 and Medium otherwise, each with its fixed reasoning string;
in particular overall 85 yields HIRE with High confidence. -/
theorem hire_decision_rules (p : PortfolioScore) :
    (determineHireDecision p).decision =
      (if 80 ≤ p.overall then "HIRE"
       else if 60 ≤ p.overall then "MAYBE" else "REJECT") ∧
    (determineHireDecision p).confidence =
      (if 80 ≤ p.overall then "High"
       else if 60 ≤ p.overall then "Medium"
       else if p.overall < 40 then "High" else "Medium") ∧
    (determineHireDecision p).reasoning =
      (if 80 ≤ p.overall then
        "Strong portfolio with excellent documentation and consistent activity"
       else if 60 ≤ p.overall then
        "Decent portfolio but needs improvement in key areas"
       else "Portfolio lacks critical elements expected from candidates") ∧
    (determineHireDecision ⟨85, 0, 0, 0, 0, 0, "B", [], []⟩).decision = "HIRE" ∧
    (determineHireDecision ⟨85, 0, 0, 0, 0, 0, "B", [], []⟩).confidence = "High" := by
  have h85 : determineHireDecision ⟨85, 0, 0, 0, 0, 0, "B", [], []⟩ =
      ⟨"HIRE", "High",
        "Strong portfolio with excellent documentation and consistent activity",
        85, "B"⟩ := by
    unfold determineHireDecision
    norm_num
  refine ⟨?_, ?_, ?_, by rw [h85], by rw [h85]⟩ <;>
    · unfold determineHireDecision
      split_ifs <;> rfl

/-- C9: the documentation-analysis record carries the
`has_api_documentation` key exactly when the readme is non-empty (the empty
branch returns a record without that key, modelled as `none`). -/
theorem doc_api_field_shape (readme : List Char) :
    (analyzeDocumentation readme).has_api_documentation =
      (if readme.isEmpty then none else some (hasApiKeyword readme)) ∧
    ((analyzeDocumentation readme).has_api_documentation).isSome =
      !readme.isEmpty := by
  cases hre : readme.isEmpty <;> simp [analyzeDocumentation, hre]

/-- C5 as amended: the zero-commit branch returns the all-zero record; the
non-empty branch reports the commit count, newest commit timestamp and
activity flag (strictly fewer than 30 floored days since the newest commit),
and the returned `commit_frequency` is the raw count-over-day-span frequency
ROUNDED TO TWO DECIMALS while the activity score is computed from the
unrounded frequency.  `commits` are newest first, as the collaborator
returns them. -/
theorem activity_analysis_spec (now : ℤ) (commits : List ℤ)
    (hs : List.Sorted (fun a b => a ≥ b) commits) : activitySpec now commits := by
  unfold activitySpec
  cases commits with
  | nil => simp [analyzeActivity]
  | cons c cs =>
    have hne : c :: cs ≠ [] := by simp
    have hfreq : commitFrequency (c :: cs) = claimedRawFrequency (c :: cs) :=
      commitFrequency_eq_claimed hs hne
    rw [if_neg (by simp)]
    rw [← hfreq]
    refine ⟨rfl, rfl, rfl, ?_, rfl⟩
    show decide ((now - (c :: cs).headD 0).fdiv 86400 <
      Config.ACTIVE_DAYS_THRESHOLD) = true ↔ _
    simp [Config.ACTIVE_DAYS_THRESHOLD]

/-- Witness for `activity_analysis_spec` at a concrete sorted commit list. -/
theorem activity_analysis_spec_witness :
    List.Sorted (fun a b => a ≥ b) [(86400:ℤ), 0] ∧
    activitySpec 172800 [86400, 0] :=
  ⟨by decide, activity_analysis_spec 172800 [86400, 0] (by decide)⟩

/-- C5 counterexample: for two commits spanning three days the claimed
frequency is 2/3, but the returned `commit_frequency` field is the rounded
value 0.67, which differs from 2/3. -/
theorem activity_frequency_rounding_cex :
    claimedRawFrequency [259200, 0] = 2/3 ∧
    (analyzeActivity 1700000000 [259200, 0]).commit_frequency = 67/100 ∧
    ((2:ℚ)/3) ≠ 67/100 := by
  have hspan : (([(259200:ℤ), 0]).headD 0 - ([(259200:ℤ), 0]).getLastD 0).fdiv
      86400 = 3 := by decide
  have hclaim : claimedRawFrequency [259200, 0] = 2/3 := by
    simp only [claimedRawFrequency, hspan]
    norm_num
  have hfreq : commitFrequency [259200, 0] = 2/3 := by
    rw [commitFrequency_eq_claimed (by decide) (by decide), hclaim]
  refine ⟨hclaim, ?_, by norm_num⟩
  show pyRound2 (commitFrequency [259200, 0]) = 67/100
  rw [hfreq]
  unfold pyRound2
  rw [show (100:ℚ) * (2/3) = 200/3 by norm_num]
  have hr : roundHalfEven ((200:ℚ)/3) = 67 := by
    have h67 := roundHalfEven_eq_add_one (q := (200:ℚ)/3) (n := 66)
      (by norm_num) (by norm_num) (by norm_num)
    simpa using h67
  rw [hr]
  norm_num

/-- The two-decimal rounding of the estimated-impact delta is exact whenever
the current score is itself a two-decimal value. -/
lemma pyRound2_potential_diff (k : ℤ) :
    pyRound2 ((if (k:ℚ)/100 < 50 then min ((k:ℚ)/100 + 30) 100
      else if (k:ℚ)/100 < 70 then min ((k:ℚ)/100 + 20) 100
      else min ((k:ℚ)/100 + 10) 100) - (k:ℚ)/100) =
    (if (k:ℚ)/100 < 50 then min ((k:ℚ)/100 + 30) 100
      else if (k:ℚ)/100 < 70 then min ((k:ℚ)/100 + 20) 100
      else min ((k:ℚ)/100 + 10) 100) - (k:ℚ)/100 := by
  split_ifs with h1 h2
  · rw [min_eq_left (by linarith)]
    rw [show ((k:ℚ)/100 + 30) - (k:ℚ)/100 = ((30:ℤ):ℚ) by push_cast; ring]
    rw [pyRound2_intCast]
  · rw [min_eq_left (by linarith)]
    rw [show ((k:ℚ)/100 + 20) - (k:ℚ)/100 = ((20:ℤ):ℚ) by push_cast; ring]
    rw [pyRound2_intCast]
  · rcases le_or_lt ((k:ℚ)/100 + 10) 100 with hle | hgt
    · rw [min_eq_left hle]
      rw [show ((k:ℚ)/100 + 10) - (k:ℚ)/100 = ((10:ℤ):ℚ) by push_cast; ring]
      rw [pyRound2_intCast]
    · rw [min_eq_right (by linarith)]
      rw [show (100:ℚ) - (k:ℚ)/100 = ((10000 - k : ℤ):ℚ)/100 by push_cast; ring]
      rw [pyRound2_div100]

/-- C8: for every portfolio score handed to the roadmap generator, the
estimated impact reports the portfolio overall unchanged as
`current_score`, the potential score is current+30 capped at 100 below 50,
current+20 capped at 100 in [50,70), and current+10 capped at 100 otherwise,
and the reported improvement is exactly potential minus current. -/
theorem roadmap_impact_round_trip (user : UserData) (repos : List AnalyzedRepo) :
    (estimateImpact (calculatePortfolioScore user repos)).current_score =
      (calculatePortfolioScore user repos).overall ∧
    (estimateImpact (calculatePortfolioScore user repos)).potential_score =
      (if (calculatePortfolioScore user repos).overall < 50 then
        min ((calculatePortfolioScore user repos).overall + 30) 100
       else if (calculatePortfolioScore user repos).overall < 70 then
        min ((calculatePortfolioScore user repos).overall + 20) 100
       else min ((calculatePortfolioScore user repos).overall + 10) 100) ∧
    (estimateImpact (calculatePortfolioScore user repos)).improvement =
      (estimateImpact (calculatePortfolioScore user repos)).potential_score -
      (estimateImpact (calculatePortfolioScore user repos)).current_score := by
  refine ⟨rfl, rfl, ?_⟩
  exact pyRound2_potential_diff
    (roundHalfEven (100 * portfolioOverallRaw user repos))

/-! ### Portfolio component bounds -/

lemma documentationScore_bounds (repos : List AnalyzedRepo)
    (hq : ∀ r ∈ repos, r.documentation_analysis.quality_score ≤ 100) :
    0 ≤ documentationScore repos ∧ documentationScore repos ≤ 100 := by
  unfold documentationScore
  by_cases hre : repos = []
  · simp [hre]
  · rw [if_neg (by simpa [List.isEmpty_iff] using hre)]
    constructor
    · exact div_nonneg (Nat.cast_nonneg _) (Nat.cast_nonneg _)
    · have hm := mean_le_nat
        (l := repos.map fun r => r.documentation_analysis.quality_score)
        (c := 100) (by simpa using hre) (by
          intro x hx
          obtain ⟨r, hr, rfl⟩ := List.mem_map.mp hx
          exact hq r hr)
      simpa using hm

lemma codeQualityScore_bounds (repos : List AnalyzedRepo)
    (hq : ∀ r ∈ repos, r.score.code_quality ≤ 100) :
    0 ≤ codeQualityScore repos ∧ codeQualityScore repos ≤ 100 := by
  unfold codeQualityScore
  by_cases hre : repos = []
  · simp [hre]
  · rw [if_neg (by simpa [List.isEmpty_iff] using hre)]
    constructor
    · exact div_nonneg (Nat.cast_nonneg _) (Nat.cast_nonneg _)
    · have hm := mean_le_nat (l := repos.map fun r => r.score.code_quality)
        (c := 100) (by simpa using hre) (by
          intro x hx
          obtain ⟨r, hr, rfl⟩ := List.mem_map.mp hx
          exact hq r hr)
      simpa using hm

lemma consistencyScore_bounds (repos : List AnalyzedRepo) (user : UserData) :
    0 ≤ consistencyScore repos user ∧ consistencyScore repos user ≤ 100 := by
  unfold consistencyScore
  by_cases hre : repos = []
  · simp [hre]
  · rw [if_neg (by simpa [List.isEmpty_iff] using hre)]
    refine ⟨le_min (by positivity) (by norm_num), min_le_right _ _⟩

lemma impactScore_bounds (repos : List AnalyzedRepo) :
    0 ≤ impactScore repos ∧ impactScore repos ≤ 100 := by
  unfold impactScore
  by_cases hre : repos = []
  · simp [hre]
  · rw [if_neg (by simpa [List.isEmpty_iff] using hre)]
    constructor
    · positivity
    · exact_mod_cast Nat.min_le_right _ 100

lemma depthScore_bounds (repos : List AnalyzedRepo) :
    0 ≤ depthScore repos ∧ depthScore repos ≤ 100 := by
  constructor <;> simp only [depthScore] <;> split_ifs <;> norm_num

lemma pyRound2_bounds_0_100 {q : ℚ} (h0 : 0 ≤ q) (h1 : q ≤ 100) :
    0 ≤ pyRound2 q ∧ pyRound2 q ≤ 100 := by
  constructor
  · have h := le_pyRound2 (a := 0) (q := q) (by exact_mod_cast h0)
    exact_mod_cast h
  · have h := pyRound2_le (b := 100) (q := q) (by exact_mod_cast h1)
    exact_mod_cast h

/-- C10: every analyzer-produced per-repository code-quality score lies in
[50, 85] (base 50, at most +20 for multiple languages and +15 for wiki, so
the clamp at 100 never binds); consequently the portfolio code-quality
component, a mean of such values, also lies in [50, 85] and never equals
100. -/
theorem code_quality_band (user : UserData) (now : ℤ) (inputs : List RepoInput)
    (h : inputs ≠ []) : c10Spec user now inputs := by
  unfold c10Spec
  have hper : ∀ r ∈ inputs.map (analyzeRepository now),
      50 ≤ r.score.code_quality ∧ r.score.code_quality ≤ 85 := by
    intro r hr
    obtain ⟨i, hi, rfl⟩ := List.mem_map.mp hr
    exact analyzed_code_quality_bounds now i
  have hne : inputs.map (analyzeRepository now) ≠ [] := by
    simpa using h
  have hlo : (50:ℚ) ≤ codeQualityScore (inputs.map (analyzeRepository now)) := by
    unfold codeQualityScore
    rw [if_neg (by simpa [List.isEmpty_iff] using hne)]
    have hm := nat_le_mean
      (l := (inputs.map (analyzeRepository now)).map fun r => r.score.code_quality)
      (c := 50) (by simpa using hne) (by
        intro x hx
        obtain ⟨r, hr, rfl⟩ := List.mem_map.mp hx
        exact (hper r hr).1)
    simpa using hm
  have hhi : codeQualityScore (inputs.map (analyzeRepository now)) ≤ (85:ℚ) := by
    unfold codeQualityScore
    rw [if_neg (by simpa [List.isEmpty_iff] using hne)]
    have hm := mean_le_nat
      (l := (inputs.map (analyzeRepository now)).map fun r => r.score.code_quality)
      (c := 85) (by simpa using hne) (by
        intro x hx
        obtain ⟨r, hr, rfl⟩ := List.mem_map.mp hx
        exact (hper r hr).2)
    simpa using hm
  have hlo2 : (50:ℚ) ≤
      (calculatePortfolioScore user (inputs.map (analyzeRepository now))).code_quality := by
    have hp := le_pyRound2 (a := 50)
      (q := codeQualityScore (inputs.map (analyzeRepository now)))
      (by exact_mod_cast hlo)
    exact_mod_cast hp
  have hhi2 :
      (calculatePortfolioScore user (inputs.map (analyzeRepository now))).code_quality
        ≤ (85:ℚ) := by
    have hp := pyRound2_le (b := 85)
      (q := codeQualityScore (inputs.map (analyzeRepository now)))
      (by exact_mod_cast hhi)
    exact_mod_cast hp
  refine ⟨hper, hlo2, hhi2, ?_⟩
  intro heq
  rw [heq] at hhi2
  norm_num at hhi2

/-- Witness for `code_quality_band` at a concrete one-repository input. -/
theorem code_quality_band_witness :
    ([r0] : List RepoInput) ≠ [] ∧ c10Spec c1User 0 [r0] :=
  ⟨by simp, code_quality_band c1User 0 [r0] (by simp)⟩

/-- C1 as amended: for every user record and every analyzer-produced
repository list, the five rounded component scores and the rounded overall
all lie in [0, 100], and the grade is the deterministic step function
(cutoffs 90/80/70/60) of the EXACT pre-rounding weighted overall score; the
companion counterexample shows the grade can differ from the step function
of the rounded overall field the result carries. -/
theorem portfolio_bounds_grade_of_raw_overall (user : UserData) (now : ℤ)
    (inputs : List RepoInput) :
    let repos := inputs.map (analyzeRepository now)
    let p := calculatePortfolioScore user repos
    (0 ≤ p.documentation ∧ p.documentation ≤ 100) ∧
    (0 ≤ p.code_quality ∧ p.code_quality ≤ 100) ∧
    (0 ≤ p.consistency ∧ p.consistency ≤ 100) ∧
    (0 ≤ p.impact ∧ p.impact ≤ 100) ∧
    (0 ≤ p.depth ∧ p.depth ≤ 100) ∧
    (0 ≤ p.overall ∧ p.overall ≤ 100) ∧
    p.grade = getGrade (portfolioOverallRaw user repos) := by
  intro repos p
  have hq : ∀ r ∈ repos, r.documentation_analysis.quality_score ≤ 100 := by
    intro r hr
    obtain ⟨i, hi, rfl⟩ := List.mem_map.mp hr
    exact quality_score_le_100 i.readme
  have hcq : ∀ r ∈ repos, r.score.code_quality ≤ 100 := by
    intro r hr
    obtain ⟨i, hi, rfl⟩ := List.mem_map.mp hr
    exact le_trans (analyzed_code_quality_bounds now i).2 (by norm_num)
  have hdoc := documentationScore_bounds repos hq
  have hcode := codeQualityScore_bounds repos hcq
  have hcons := consistencyScore_bounds repos user
  have himp := impactScore_bounds repos
  have hdep := depthScore_bounds repos
  have hraw : 0 ≤ portfolioOverallRaw user repos ∧
      portfolioOverallRaw user repos ≤ 100 := by
    unfold portfolioOverallRaw Config.wDocumentation Config.wCodeQuality
      Config.wConsistency Config.wImpact Config.wDepth
    constructor
    · linarith [hdoc.1, hcode.1, hcons.1, himp.1, hdep.1]
    · linarith [hdoc.2, hcode.2, hcons.2, himp.2, hdep.2]
  exact ⟨pyRound2_bounds_0_100 hdoc.1 hdoc.2,
    pyRound2_bounds_0_100 hcode.1 hcode.2,
    pyRound2_bounds_0_100 hcons.1 hcons.2,
    pyRound2_bounds_0_100 himp.1 himp.2,
    pyRound2_bounds_0_100 hdep.1 hdep.2,
    pyRound2_bounds_0_100 hraw.1 hraw.2, rfl⟩

/-- C1 counterexample: for a concrete user (46 recent events) and three
analyzer-produced repositories the exact weighted overall is
26999/300 = 89.9966..., so the returned overall field rounds to 90 while the
returned grade — computed from the pre-rounding value — is "B"; the step
function of the returned overall score would give "A", so the grade is not a
function of the returned overall. -/
theorem portfolio_grade_rounding_cex :
    (calculatePortfolioScore c1User c1Repos).overall = 90 ∧
    (calculatePortfolioScore c1User c1Repos).grade = "B" ∧
    getGrade ((calculatePortfolioScore c1User c1Repos).overall) = "A" := by
  have hsumdoc :
      (c1Repos.map fun r => r.documentation_analysis.quality_score).sum = 260 := by
    decide
  have hsumcode : (c1Repos.map fun r => r.score.code_quality).sum = 255 := by
    decide
  have hcount : (c1Repos.countP fun r => r.activity_analysis.is_active) = 3 := by
    decide
  have hsumstars : (c1Repos.map fun r => r.stars).sum = 42 := by decide
  have hsumforks : (c1Repos.map fun r => r.forks).sum = 1 := by decide
  have hlang : (allLanguages c1Repos).length = 6 := by decide
  have hlen : c1Repos.length = 3 := by decide
  have hne : c1Repos.isEmpty = false := by decide
  have hds : documentationScore c1Repos = 260/3 := by
    simp only [documentationScore, hne, Bool.false_eq_true, if_false,
      hsumdoc, hlen]
    norm_num
  have hcs : codeQualityScore c1Repos = 85 := by
    simp only [codeQualityScore, hne, Bool.false_eq_true, if_false,
      hsumcode, hlen]
    norm_num
  have hmin46 : min c1User.recent_activity 50 = 46 := by decide
  have hconsis : consistencyScore c1Repos c1User = 492/5 := by
    simp only [consistencyScore, hne, Bool.false_eq_true, if_false,
      hcount, hlen, hmin46]
    rw [min_eq_left (by norm_num)]
    norm_num
  have himp2 : impactScore c1Repos = 87 := by
    simp only [impactScore, hne, Bool.false_eq_true, if_false,
      hsumstars, hsumforks]
    norm_num
  have hdep2 : depthScore c1Repos = 100 := by
    simp only [depthScore, hne, Bool.false_eq_true, if_false, hlang]
    norm_num
  have hraw : portfolioOverallRaw c1User c1Repos = 26999/300 := by
    rw [portfolioOverallRaw, hds, hcs, hconsis, himp2, hdep2]
    unfold Config.wDocumentation Config.wCodeQuality Config.wConsistency
      Config.wImpact Config.wDepth
    norm_num
  have hov : (calculatePortfolioScore c1User c1Repos).overall = 90 := by
    show pyRound2 (portfolioOverallRaw c1User c1Repos) = 90
    rw [hraw]
    unfold pyRound2
    rw [show (100:ℚ) * (26999/300) = 26999/3 by norm_num]
    have hr : roundHalfEven ((26999:ℚ)/3) = 9000 := by
      have h9 := roundHalfEven_eq_add_one (q := (26999:ℚ)/3) (n := 8999)
        (by norm_num) (by norm_num) (by norm_num)
      simpa using h9
    rw [hr]
    norm_num
  refine ⟨hov, ?_, ?_⟩
  · show getGrade (portfolioOverallRaw c1User c1Repos) = "B"
    rw [hraw]
    unfold getGrade
    rw [if_neg (by norm_num), if_pos (by norm_num)]
  · rw [hov]
    unfold getGrade
    rw [if_pos (by norm_num)]
